import Mathlib

/-!
Shallow embedding of the GPU-resource subsystem of the `opengl_blackhole`
repository (`src/main.rs`, `src/objects.rs`) and proofs of the specification
claims about it.

The OpenGL driver is modelled as an oracle (`GLDriver`): a record of response
functions standing for the values the `gl::Get*` queries return and the
identifiers the `gl::Create*` / `gl::Gen*` calls hand out.  Every embedded
operation returns, beside its result, the list of driver calls it issues
(`GLCall`), so ordering properties (unbind before delete, delete old program
before recompiling, no leaked shader on the failure path) are statements about
these traces.  A small state machine (`GLState`) interprets the binding and
buffer-data calls, giving meaning to "currently bound" and "buffer contents".
-/

namespace BlackHole

/-- GLuint in the source; GPU object identifiers. -/
abbrev GLuint := Nat

/-- GLint in the source; signed query results and uniform locations. -/
abbrev GLint := Int

/-- GLenum in the source; symbolic constants. -/
abbrev GLenum := Nat

def GL_VERTEX_SHADER : GLenum := 0x8B31

def GL_FRAGMENT_SHADER : GLenum := 0x8B30

def GL_COMPILE_STATUS : GLenum := 0x8B81

def GL_LINK_STATUS : GLenum := 0x8B82

def GL_INFO_LOG_LENGTH : GLenum := 0x8B84

def GL_ARRAY_BUFFER : GLenum := 0x8892

def GL_ELEMENT_ARRAY_BUFFER : GLenum := 0x8893

def GL_DYNAMIC_DRAW : GLenum := 0x88E8

def GL_FLOAT : GLenum := 0x1406

/-- An f32 value, represented by its 32-bit pattern.  Buffer uploads and
uniform updates copy bit patterns; no floating-point arithmetic occurs in the
embedded code, so this representation is exact. -/
structure F32 where
  bits : Nat
deriving DecidableEq

/-- One call into the GPU driver, with the arguments the source passes and the
value the driver returns where the code consumes it. -/
inductive GLCall where
  | createShader (kind : GLenum) (ret : GLuint)
  | shaderSource (id : GLuint) (src : List Nat)
  | compileShader (id : GLuint)
  | getShaderiv (id : GLuint) (pname : GLenum) (ret : GLint)
  | getShaderInfoLog (id : GLuint) (bufSize : GLint)
  | deleteShader (id : GLuint)
  | createProgram (ret : GLuint)
  | attachShader (prog : GLuint) (sh : GLuint)
  | linkProgram (id : GLuint)
  | getProgramiv (id : GLuint) (pname : GLenum) (ret : GLint)
  | getProgramInfoLog (id : GLuint) (bufSize : GLint)
  | deleteProgram (id : GLuint)
  | useProgram (id : GLuint)
  | genBuffer (ret : GLuint)
  | bindBuffer (target : GLenum) (id : GLuint)
  | bufferData (target : GLenum) (size : Nat) (bytes : List Nat) (usage : GLenum)
  | deleteBuffer (id : GLuint)
  | genVertexArray (ret : GLuint)
  | bindVertexArray (id : GLuint)
  | deleteVertexArray (id : GLuint)
  | enableVertexAttribArray (index : Nat)
  | vertexAttribPointer (index : Nat) (count : Nat) (ty : GLenum)
      (normalized : Bool) (stride : Nat) (offset : Nat)
  | getUniformLocation (prog : GLuint) (name : String) (ret : GLint)
  | uniform1f (loc : GLint) (v : F32)
  | uniform2f (loc : GLint) (x y : F32)
deriving DecidableEq

/-- The driver oracle: what each query answers and which identifiers the
allocation calls return, as functions of the data the code submitted. -/
structure GLDriver where
  createShaderRet : GLenum → GLuint
  compileStatus : GLenum → List Nat → GLint
  shaderLogLen : GLenum → List Nat → GLint
  shaderLog : GLenum → List Nat → String
  createProgramRet : GLuint
  linkStatus : List GLuint → GLint
  programLogLen : List GLuint → GLint
  programLog : List GLuint → String
  uniformLocation : GLuint → String → GLint

/-- `pub struct Shader { id: GLuint }`. -/
structure Shader where
  id : GLuint
deriving DecidableEq

/-- `Shader::from_source` (src/objects.rs lines 16-43): create a shader object,
submit the source, compile, query the compile status; on failure query the log
length, fetch the log into a whitespace buffer of that length, delete the
shader object and return the log text as the error; on success return the
owning handle. -/
def Shader.from_source (d : GLDriver) (source : List Nat) (kind : GLenum) :
    Except String Shader × List GLCall :=
  let id := d.createShaderRet kind
  let success := d.compileStatus kind source
  let pre : List GLCall :=
    [GLCall.createShader kind id, GLCall.shaderSource id source,
     GLCall.compileShader id, GLCall.getShaderiv id GL_COMPILE_STATUS success]
  if success = 0 then
    let len := d.shaderLogLen kind source
    (Except.error (d.shaderLog kind source),
      pre ++ [GLCall.getShaderiv id GL_INFO_LOG_LENGTH len,
              GLCall.getShaderInfoLog id len, GLCall.deleteShader id])
  else
    (Except.ok ⟨id⟩, pre)

/-- `pub struct Program { id: GLuint }`. -/
structure Program where
  id : GLuint
deriving DecidableEq

/-- `Program::from_shaders` (src/objects.rs lines 63-96): create a program
object, attach every shader, link, query the link status; on failure query the
log length, fetch the log, delete the program object and return the log text as
the error; on success return the owning handle. -/
def Program.from_shaders (d : GLDriver) (shaders : List Shader) :
    Except String Program × List GLCall :=
  let id := d.createProgramRet
  let ids := shaders.map Shader.id
  let success := d.linkStatus ids
  let pre : List GLCall :=
    GLCall.createProgram id ::
      (shaders.map (fun s => GLCall.attachShader id s.id) ++
       [GLCall.linkProgram id, GLCall.getProgramiv id GL_LINK_STATUS success])
  if success = 0 then
    let len := d.programLogLen ids
    (Except.error (d.programLog ids),
      pre ++ [GLCall.getProgramiv id GL_INFO_LOG_LENGTH len,
              GLCall.getProgramInfoLog id len, GLCall.deleteProgram id])
  else
    (Except.ok ⟨id⟩, pre)

/-- `Program::set` (src/objects.rs lines 103-107): `gl::UseProgram(self.id)`. -/
def Program.set (p : Program) : List GLCall :=
  [GLCall.useProgram p.id]

/-- One step of the shader-leak fold: record the id a `CreateShader` returned,
erase it again at `DeleteShader`. -/
def liveShadersStep (acc : List GLuint) (c : GLCall) : List GLuint :=
  match c with
  | GLCall.createShader _ ret => acc ++ [ret]
  | GLCall.deleteShader id => acc.erase id
  | _ => acc

/-- Shader ids created but not deleted in a trace, in creation order. -/
def liveShaders (tr : List GLCall) : List GLuint :=
  tr.foldl liveShadersStep []

/-- One step of the program-leak fold. -/
def liveProgramsStep (acc : List GLuint) (c : GLCall) : List GLuint :=
  match c with
  | GLCall.createProgram ret => acc ++ [ret]
  | GLCall.deleteProgram id => acc.erase id
  | _ => acc

/-- Program ids created but not deleted in a trace. -/
def livePrograms (tr : List GLCall) : List GLuint :=
  tr.foldl liveProgramsStep []

/-- Scalar component types appearing in vertex records; the source only uses
f32. -/
inductive ScalarTy where
  | f32
deriving DecidableEq

/-- Size in bytes of a scalar component (`size_of::<f32>()` is 4). -/
def scalarSize : ScalarTy → Nat
  | ScalarTy.f32 => 4

/-- Alignment in bytes of a scalar component (f32 has alignment 4). -/
def scalarAlign : ScalarTy → Nat
  | ScalarTy.f32 => 4

/-- A record field is a tuple of scalars, e.g. `(f32, f32)`. -/
abbrev FieldTy := List ScalarTy

/-- Size of a homogeneous tuple field: the sum of its component sizes (no
interior padding between equal-size, equal-alignment components). -/
def fieldSize (f : FieldTy) : Nat :=
  (f.map scalarSize).sum

/-- Alignment of a tuple field: the maximum component alignment. -/
def fieldAlign (f : FieldTy) : Nat :=
  (f.map scalarAlign).foldl max 1

/-- Round `n` up to the next multiple of `a`. -/
def alignUp (n a : Nat) : Nat :=
  ((n + a - 1) / a) * a

/-- repr(C) layout: field offsets are assigned in declaration order, each
aligned up to the field's alignment, and the struct size is the end of the
last field aligned up to the struct alignment.  This is the meaning of
`offset_of!` and `size_of` on a `#[repr(C)]` struct. -/
def reprCOffsets (fields : List FieldTy) : List Nat :=
  (fields.foldl
    (fun (acc : List Nat × Nat) f =>
      let off := alignUp acc.2 (fieldAlign f)
      (acc.1 ++ [off], off + fieldSize f))
    ([], 0)).1

/-- repr(C) struct size: end of the last field, aligned up to the maximal
field alignment. -/
def reprCSize (fields : List FieldTy) : Nat :=
  let last := (fields.foldl
    (fun (n : Nat) f => alignUp n (fieldAlign f) + fieldSize f) 0)
  alignUp last ((fields.map fieldAlign).foldl max 1)

/-- The field types of `Vertex` in declaration order:
`position: (f32, f32)`, `color: (f32, f32, f32)`, `tex_coord: (f32, f32)`. -/
def vertexFieldTys : List FieldTy :=
  [[ScalarTy.f32, ScalarTy.f32],
   [ScalarTy.f32, ScalarTy.f32, ScalarTy.f32],
   [ScalarTy.f32, ScalarTy.f32]]

/-- `offset_of!(Vertex, field)` for the i-th field of `Vertex`. -/
def vertexOffset (i : Nat) : Nat :=
  (reprCOffsets vertexFieldTys).getD i 0

/-- `size_of::<Vertex>()`. -/
def sizeOfVertex : Nat :=
  reprCSize vertexFieldTys

/-- `pub struct Vertex` (src/objects.rs lines 139-145): a repr(C) record of
seven f32 components. -/
structure Vertex where
  position : F32 × F32
  color : F32 × F32 × F32
  tex_coord : F32 × F32
deriving DecidableEq

/-- `Vertex::new`. -/
def Vertex.new (pos : F32 × F32) (color : F32 × F32 × F32)
    (tex_coord : F32 × F32) : Vertex :=
  ⟨pos, color, tex_coord⟩

/-- Little-endian byte image of a 32-bit pattern. -/
def le32 (n : Nat) : List Nat :=
  [n % 256, n / 256 % 256, n / 65536 % 256, n / 16777216 % 256]

/-- Byte image of one `Vertex` as it sits in memory: the seven f32 bit
patterns at offsets 0,4,...,24. -/
def vertexBytes (v : Vertex) : List Nat :=
  le32 v.position.1.bits ++ le32 v.position.2.bits ++
  le32 v.color.1.bits ++ le32 v.color.2.1.bits ++ le32 v.color.2.2.bits ++
  le32 v.tex_coord.1.bits ++ le32 v.tex_coord.2.bits

/-- Byte image of a slice of vertices (`vertices.as_ptr()` with
`size_of_val(vertices)` bytes). -/
def vertexSliceBytes (vs : List Vertex) : List Nat :=
  (vs.map vertexBytes).flatten

/-- Byte image of a `&[u32]` index slice. -/
def indexSliceBytes (is : List Nat) : List Nat :=
  (is.map le32).flatten

/-- `Vertex::desc` (src/objects.rs lines 156-194): for each of the three
attributes, enable its slot and register component count, type, normalization,
stride (`size_of::<Self>()`) and field offset (`offset_of!`). -/
def Vertex.desc : List GLCall :=
  let stride := sizeOfVertex
  [GLCall.enableVertexAttribArray 0,
   GLCall.vertexAttribPointer 0 2 GL_FLOAT false stride (vertexOffset 0),
   GLCall.enableVertexAttribArray 1,
   GLCall.vertexAttribPointer 1 3 GL_FLOAT false stride (vertexOffset 1),
   GLCall.enableVertexAttribArray 2,
   GLCall.vertexAttribPointer 2 2 GL_FLOAT false stride (vertexOffset 2)]

/-- `pub struct Vbo { pub id: GLuint }`. -/
structure Vbo where
  id : GLuint
deriving DecidableEq

/-- `Vbo::bind`: `gl::BindBuffer(gl::ARRAY_BUFFER, self.id)`. -/
def Vbo.bind (v : Vbo) : List GLCall :=
  [GLCall.bindBuffer GL_ARRAY_BUFFER v.id]

/-- `Vbo::data`: `gl::BufferData(gl::ARRAY_BUFFER, size_of_val(vertices), ptr,
gl::DYNAMIC_DRAW)`. -/
def Vbo.data (vertices : List Vertex) : List GLCall :=
  [GLCall.bufferData GL_ARRAY_BUFFER (vertices.length * sizeOfVertex)
    (vertexSliceBytes vertices) GL_DYNAMIC_DRAW]

/-- `Vbo::set` (src/objects.rs lines 211-214): bind, then upload. -/
def Vbo.set (v : Vbo) (data : List Vertex) : List GLCall :=
  Vbo.bind v ++ Vbo.data data

/-- `impl Drop for Vbo` (src/objects.rs lines 250-255): unbind then delete. -/
def Vbo.dropTrace (v : Vbo) : List GLCall :=
  [GLCall.bindBuffer GL_ARRAY_BUFFER 0, GLCall.deleteBuffer v.id]

/-- `pub struct Ibo { pub id: GLuint }`. -/
structure Ibo where
  id : GLuint
deriving DecidableEq

/-- `Ibo::bind`: `gl::BindBuffer(gl::ELEMENT_ARRAY_BUFFER, self.id)`. -/
def Ibo.bind (b : Ibo) : List GLCall :=
  [GLCall.bindBuffer GL_ELEMENT_ARRAY_BUFFER b.id]

/-- `Ibo::data`: `gl::BufferData(gl::ELEMENT_ARRAY_BUFFER,
size_of_val(indices), ptr, gl::DYNAMIC_DRAW)`; `size_of::<u32>()` is 4. -/
def Ibo.data (indices : List Nat) : List GLCall :=
  [GLCall.bufferData GL_ELEMENT_ARRAY_BUFFER (indices.length * 4)
    (indexSliceBytes indices) GL_DYNAMIC_DRAW]

/-- `Ibo::set` (src/objects.rs lines 271-274): bind, then upload. -/
def Ibo.set (b : Ibo) (data : List Nat) : List GLCall :=
  Ibo.bind b ++ Ibo.data data

/-- `impl Drop for Ibo` (src/objects.rs lines 310-315): unbind then delete. -/
def Ibo.dropTrace (b : Ibo) : List GLCall :=
  [GLCall.bindBuffer GL_ELEMENT_ARRAY_BUFFER 0, GLCall.deleteBuffer b.id]

/-- `pub struct Vao { pub id: GLuint }`. -/
structure Vao where
  id : GLuint
deriving DecidableEq

/-- `Vao::set` (src/objects.rs lines 331-334): bind the vertex array, then run
`Vertex::desc`. -/
def Vao.set (a : Vao) : List GLCall :=
  GLCall.bindVertexArray a.id :: Vertex.desc

/-- `impl Drop for Vao` (src/objects.rs lines 359-364): unbind then delete. -/
def Vao.dropTrace (a : Vao) : List GLCall :=
  [GLCall.bindVertexArray 0, GLCall.deleteVertexArray a.id]

/-- `pub struct Uniform { pub id: GLint }`: a resolved location only. -/
structure Uniform where
  id : GLint
deriving DecidableEq

/-- Outcome of `Uniform::new`: the `expect` on `CString::new` makes a panic a
possible result beside the `Result` the function returns. -/
inductive NewResult where
  | panicked
  | err (msg : String)
  | ok (u : Uniform)
deriving DecidableEq

/-- `Uniform::new` (src/objects.rs lines 372-379): `CString::new(name)` panics
via `expect` when `name` contains a NUL byte; otherwise query the location by
name, return a lookup error naming the parameter when the driver answers -1,
and the handle holding the location otherwise. -/
def Uniform.new (d : GLDriver) (program : GLuint) (name : String) :
    NewResult × List GLCall :=
  if (Char.ofNat 0) ∈ name.data then
    (NewResult.panicked, [])
  else
    let location := d.uniformLocation program name
    if location = -1 then
      (NewResult.err ("Couldn\x27t get Uniform location for " ++ name),
        [GLCall.getUniformLocation program name location])
    else
      (NewResult.ok ⟨location⟩, [GLCall.getUniformLocation program name location])

/-- `Uniform::set_1f` (src/objects.rs lines 381-385):
`gl::Uniform1f(self.id, value)`. -/
def Uniform.set_1f (u : Uniform) (value : F32) : List GLCall :=
  [GLCall.uniform1f u.id value]

/-- `Uniform::set_vec2f` (src/objects.rs lines 387-391):
`gl::Uniform2f(self.id, value.0, value.1)`. -/
def Uniform.set_vec2f (u : Uniform) (value : F32 × F32) : List GLCall :=
  [GLCall.uniform2f u.id value.1 value.2]

/-- `create_program` (src/objects.rs lines 124-137): read both sources
(modelled as parameters; file IO is external), wrap them as C strings
(an interior NUL aborts with a `NulError`), compile the vertex and fragment
shaders, link them; the two local `Shader` values drop (reverse declaration
order) when the function returns, on the success path and on the link-failure
path alike, and the vertex shader also drops when the fragment compile fails. -/
def create_program (d : GLDriver) (vertSrc fragSrc : List Nat) :
    Except String Program × List GLCall :=
  if 0 ∈ vertSrc then (Except.error "nul byte found in provided data", [])
  else if 0 ∈ fragSrc then (Except.error "nul byte found in provided data", [])
  else
    match Shader.from_source d vertSrc GL_VERTEX_SHADER with
    | (Except.error e, t1) => (Except.error e, t1)
    | (Except.ok vs, t1) =>
      match Shader.from_source d fragSrc GL_FRAGMENT_SHADER with
      | (Except.error e, t2) =>
          (Except.error e, t1 ++ t2 ++ [GLCall.deleteShader vs.id])
      | (Except.ok fs, t2) =>
        match Program.from_shaders d [vs, fs] with
        | (Except.error e, t3) =>
            (Except.error e,
              t1 ++ t2 ++ t3 ++ [GLCall.deleteShader fs.id, GLCall.deleteShader vs.id])
        | (Except.ok p, t3) =>
            (Except.ok p,
              t1 ++ t2 ++ t3 ++ [GLCall.deleteShader fs.id, GLCall.deleteShader vs.id])

/-- Outcome of the hot-reload key handler: either a new running program or a
panic (the handler unwraps the rebuild result). -/
inductive ReloadOutcome where
  | running (p : Program)
  | panicked (msg : String)
deriving DecidableEq

/-- The `Scancode::R` handler (src/main.rs lines 61-65): `drop(program)` frees
the old program first, then `create_program().unwrap()` rebuilds, then
`program.set()` activates the new program.  A rebuild failure panics after the
old program is already deleted. -/
def hotReloadStep (d : GLDriver) (old : Program) (vertSrc fragSrc : List Nat) :
    ReloadOutcome × List GLCall :=
  let dropOld : List GLCall := [GLCall.deleteProgram old.id]
  match create_program d vertSrc fragSrc with
  | (Except.error e, t) => (ReloadOutcome.panicked e, dropOld ++ t)
  | (Except.ok p, t) => (ReloadOutcome.running p, dropOld ++ t ++ Program.set p)

/-- Context state the binding calls manipulate: one current-binding register
per target, plus the byte contents of every buffer id. -/
structure GLState where
  arrayBufferBinding : GLuint
  elementBufferBinding : GLuint
  vertexArrayBinding : GLuint
  currentProgram : GLuint
  bufferContents : GLuint → List Nat

/-- One step of the context state machine: binds update the register of their
target, `BufferData` replaces the whole contents of the buffer currently bound
to its target with the first `size` bytes at the pointer. -/
def applyCall (s : GLState) (c : GLCall) : GLState :=
  match c with
  | GLCall.bindBuffer target id =>
      if target = GL_ARRAY_BUFFER then { s with arrayBufferBinding := id }
      else if target = GL_ELEMENT_ARRAY_BUFFER then { s with elementBufferBinding := id }
      else s
  | GLCall.bufferData target size bytes _ =>
      let bound := if target = GL_ARRAY_BUFFER then s.arrayBufferBinding
        else s.elementBufferBinding
      { s with bufferContents :=
          fun i => if i = bound then bytes.take size else s.bufferContents i }
  | GLCall.bindVertexArray id => { s with vertexArrayBinding := id }
  | GLCall.useProgram id => { s with currentProgram := id }
  | _ => s

/-- Run a trace through the context state machine. -/
def applyTrace (s : GLState) (tr : List GLCall) : GLState :=
  tr.foldl applyCall s

/-- True when, somewhere in the trace, a buffer is deleted while it is the
current binding of the vertex-data target. -/
def deleteWhileBoundArray (s : GLState) : List GLCall → Bool
  | [] => false
  | c :: cs =>
    (match c with
     | GLCall.deleteBuffer id => decide (s.arrayBufferBinding = id ∧ id ≠ 0)
     | _ => false) || deleteWhileBoundArray (applyCall s c) cs

/-- True when, somewhere in the trace, a buffer is deleted while it is the
current binding of the index-data target. -/
def deleteWhileBoundElement (s : GLState) : List GLCall → Bool
  | [] => false
  | c :: cs =>
    (match c with
     | GLCall.deleteBuffer id => decide (s.elementBufferBinding = id ∧ id ≠ 0)
     | _ => false) || deleteWhileBoundElement (applyCall s c) cs

/-- True when, somewhere in the trace, a vertex array is deleted while it is
the current vertex-array binding. -/
def deleteWhileBoundVao (s : GLState) : List GLCall → Bool
  | [] => false
  | c :: cs =>
    (match c with
     | GLCall.deleteVertexArray id => decide (s.vertexArrayBinding = id ∧ id ≠ 0)
     | _ => false) || deleteWhileBoundVao (applyCall s c) cs

/-! Concrete drivers used by witnesses and counterexamples. -/

/-- A driver on which the vertex stage compiles and the fragment stage fails
with log "bad fragment". -/
def dBadFrag : GLDriver where
  createShaderRet := fun k => if k = GL_VERTEX_SHADER then 7 else 8
  compileStatus := fun k _ => if k = GL_VERTEX_SHADER then 1 else 0
  shaderLogLen := fun _ _ => 12
  shaderLog := fun _ _ => "bad fragment"
  createProgramRet := 21
  linkStatus := fun _ => 1
  programLogLen := fun _ => 0
  programLog := fun _ => ""
  uniformLocation := fun _ _ => 0

/-- A driver on which everything succeeds; the uniform "u_time" resolves to
location 5 in every program, and other names are absent. -/
def dOk : GLDriver where
  createShaderRet := fun k => if k = GL_VERTEX_SHADER then 7 else 8
  compileStatus := fun _ _ => 1
  shaderLogLen := fun _ _ => 0
  shaderLog := fun _ _ => ""
  createProgramRet := 21
  linkStatus := fun _ => 1
  programLogLen := fun _ => 0
  programLog := fun _ => ""
  uniformLocation := fun _ name => if name = "u_time" then 5 else -1

/-- C3: the failure path of `Shader::from_source` queries `INFO_LOG_LENGTH`,
fetches the log with that buffer size, deletes the shader object (so no shader
id stays live in the trace), and returns the full driver log text as the
error. -/
theorem compile_failure_queries_log_deletes_shader
    (d : GLDriver) (source : List Nat) (kind : GLenum)
    (h : d.compileStatus kind source = 0) :
    Shader.from_source d source kind =
      (Except.error (d.shaderLog kind source),
        [GLCall.createShader kind (d.createShaderRet kind),
         GLCall.shaderSource (d.createShaderRet kind) source,
         GLCall.compileShader (d.createShaderRet kind),
         GLCall.getShaderiv (d.createShaderRet kind) GL_COMPILE_STATUS 0,
         GLCall.getShaderiv (d.createShaderRet kind) GL_INFO_LOG_LENGTH
           (d.shaderLogLen kind source),
         GLCall.getShaderInfoLog (d.createShaderRet kind)
           (d.shaderLogLen kind source),
         GLCall.deleteShader (d.createShaderRet kind)])
    ∧ liveShaders (Shader.from_source d source kind).2 = [] := by
  constructor
  · simp [Shader.from_source, h]
  · simp [Shader.from_source, h, liveShaders, liveShadersStep]

/-- Witness for C3 at a concrete driver and source. -/
theorem compile_failure_queries_log_deletes_shader_witness :
    dBadFrag.compileStatus GL_FRAGMENT_SHADER [102] = 0
    ∧ (Shader.from_source dBadFrag [102] GL_FRAGMENT_SHADER =
        (Except.error (dBadFrag.shaderLog GL_FRAGMENT_SHADER [102]),
          [GLCall.createShader GL_FRAGMENT_SHADER
             (dBadFrag.createShaderRet GL_FRAGMENT_SHADER),
           GLCall.shaderSource (dBadFrag.createShaderRet GL_FRAGMENT_SHADER) [102],
           GLCall.compileShader (dBadFrag.createShaderRet GL_FRAGMENT_SHADER),
           GLCall.getShaderiv (dBadFrag.createShaderRet GL_FRAGMENT_SHADER)
             GL_COMPILE_STATUS 0,
           GLCall.getShaderiv (dBadFrag.createShaderRet GL_FRAGMENT_SHADER)
             GL_INFO_LOG_LENGTH (dBadFrag.shaderLogLen GL_FRAGMENT_SHADER [102]),
           GLCall.getShaderInfoLog (dBadFrag.createShaderRet GL_FRAGMENT_SHADER)
             (dBadFrag.shaderLogLen GL_FRAGMENT_SHADER [102]),
           GLCall.deleteShader (dBadFrag.createShaderRet GL_FRAGMENT_SHADER)])
        ∧ liveShaders (Shader.from_source dBadFrag [102] GL_FRAGMENT_SHADER).2 = []) :=
  ⟨by decide,
   compile_failure_queries_log_deletes_shader dBadFrag [102] GL_FRAGMENT_SHADER
     (by decide)⟩

/-- C4: when the driver accepts the source (compile status nonzero, which is
what "syntactically valid" means at the ABI boundary) and hands out a nonzero
shader id (the OpenGL guarantee for `CreateShader` under a valid context),
`Shader::from_source` returns `Ok` and the handle's identifier is that nonzero
id. -/
theorem compile_valid_source_ok_nonzero
    (d : GLDriver) (source : List Nat) (kind : GLenum)
    (hvalid : d.compileStatus kind source ≠ 0)
    (hid : d.createShaderRet kind ≠ 0) :
    (Shader.from_source d source kind).1 = Except.ok ⟨d.createShaderRet kind⟩
    ∧ d.createShaderRet kind ≠ 0 := by
  refine ⟨?_, hid⟩
  simp [Shader.from_source, hvalid]

/-- Witness for C4 at a concrete driver and source. -/
theorem compile_valid_source_ok_nonzero_witness :
    dOk.compileStatus GL_VERTEX_SHADER [118] ≠ 0
    ∧ dOk.createShaderRet GL_VERTEX_SHADER ≠ 0
    ∧ ((Shader.from_source dOk [118] GL_VERTEX_SHADER).1 =
          Except.ok ⟨dOk.createShaderRet GL_VERTEX_SHADER⟩
        ∧ dOk.createShaderRet GL_VERTEX_SHADER ≠ 0) :=
  ⟨by decide, by decide,
   compile_valid_source_ok_nonzero dOk [118] GL_VERTEX_SHADER (by decide) (by decide)⟩

/-- C5: `Program::from_shaders` creates one program object, attaches every
shader in order, links, and queries the status; on failure it runs the
length-then-text log protocol, deletes the program object and returns the log
as the error; on success it returns the owning handle and the trace ends at
the status query. -/
theorem link_attaches_all_then_checks_status (d : GLDriver) (shaders : List Shader) :
    let id := d.createProgramRet
    let ids := shaders.map Shader.id
    let pre := GLCall.createProgram id ::
      (shaders.map (fun s => GLCall.attachShader id s.id) ++
       [GLCall.linkProgram id,
        GLCall.getProgramiv id GL_LINK_STATUS (d.linkStatus ids)])
    if d.linkStatus ids = 0 then
      Program.from_shaders d shaders =
        (Except.error (d.programLog ids),
          pre ++ [GLCall.getProgramiv id GL_INFO_LOG_LENGTH (d.programLogLen ids),
                  GLCall.getProgramInfoLog id (d.programLogLen ids),
                  GLCall.deleteProgram id])
      ∧ livePrograms (Program.from_shaders d shaders).2 = []
    else
      Program.from_shaders d shaders = (Except.ok ⟨id⟩, pre) := by
  intro id ids pre
  by_cases h : d.linkStatus ids = 0
  · rw [if_pos h]
    refine ⟨by simp [Program.from_shaders, id, ids, pre, h], ?_⟩
    have hfold : ∀ (ss : List Shader) (acc : List GLuint),
        List.foldl liveProgramsStep acc
          (ss.map (fun s => GLCall.attachShader id s.id)) = acc := by
      intro ss
      induction ss with
      | nil => intro acc; rfl
      | cons hd tl ih => intro acc; simpa [liveProgramsStep] using ih acc
    simp [Program.from_shaders, ids, h, livePrograms, liveProgramsStep, hfold]
  · rw [if_neg h]
    simp [Program.from_shaders, id, ids, pre, h]

/-- The byte image of one vertex is `size_of::<Vertex>()` bytes long. -/
theorem vertexBytes_length (v : Vertex) : (vertexBytes v).length = sizeOfVertex := by
  simp [vertexBytes, le32, sizeOfVertex, reprCSize, vertexFieldTys, fieldSize,
    fieldAlign, scalarSize, scalarAlign, alignUp]

/-- The byte image of a vertex slice is `len * size_of::<Vertex>()` bytes, the
size `size_of_val` reports for the slice. -/
theorem vertexSliceBytes_length (vs : List Vertex) :
    (vertexSliceBytes vs).length = vs.length * sizeOfVertex := by
  induction vs with
  | nil => rfl
  | cons hd tl ih =>
      simp only [vertexSliceBytes, List.map_cons, List.flatten_cons,
        List.length_append, List.length_cons] at *
      rw [vertexBytes_length, ih]
      ring

/-- The byte image of a u32 index slice is `len * 4` bytes long. -/
theorem indexSliceBytes_length (is : List Nat) :
    (indexSliceBytes is).length = is.length * 4 := by
  induction is with
  | nil => rfl
  | cons hd tl ih =>
      simp only [indexSliceBytes, List.map_cons, List.flatten_cons,
        List.length_append, List.length_cons] at *
      rw [ih]
      simp [le32]
      ring

/-- C6: buffer upload is replacement, not append.  Uploading `A` then `B` to
the same Vbo leaves the buffer's contents equal to the byte image of `B`,
whatever `A` was, and the replaced storage is `len * sizeof(record)` bytes;
likewise for the Ibo with u32 records. -/
theorem upload_replaces_contents (s : GLState) (v : Vbo) (b : Ibo)
    (A B : List Vertex) (I J : List Nat) :
    (applyTrace s (Vbo.set v A ++ Vbo.set v B)).bufferContents v.id
        = vertexSliceBytes B
    ∧ (vertexSliceBytes B).length = B.length * sizeOfVertex
    ∧ (applyTrace s (Ibo.set b I ++ Ibo.set b J)).bufferContents b.id
        = indexSliceBytes J
    ∧ (indexSliceBytes J).length = J.length * 4 := by
  refine ⟨?_, vertexSliceBytes_length B, ?_, indexSliceBytes_length J⟩
  · simp [applyTrace, Vbo.set, Vbo.bind, Vbo.data, applyCall,
      GL_ARRAY_BUFFER, GL_ELEMENT_ARRAY_BUFFER, vertexSliceBytes_length]
  · simp [applyTrace, Ibo.set, Ibo.bind, Ibo.data, applyCall,
      GL_ARRAY_BUFFER, GL_ELEMENT_ARRAY_BUFFER, indexSliceBytes_length]

/-- C7: every buffer object and the vertex-array object drop by first writing
binding 0 to their target register and only then deleting the identifier, and
running the checkers over the drop traces from any starting state finds no
delete of a still-bound object. -/
theorem drop_unbinds_before_delete (s : GLState) (v : Vbo) (b : Ibo) (a : Vao) :
    Vbo.dropTrace v = [GLCall.bindBuffer GL_ARRAY_BUFFER 0, GLCall.deleteBuffer v.id]
    ∧ Ibo.dropTrace b =
        [GLCall.bindBuffer GL_ELEMENT_ARRAY_BUFFER 0, GLCall.deleteBuffer b.id]
    ∧ Vao.dropTrace a = [GLCall.bindVertexArray 0, GLCall.deleteVertexArray a.id]
    ∧ deleteWhileBoundArray s (Vbo.dropTrace v) = false
    ∧ deleteWhileBoundElement s (Ibo.dropTrace b) = false
    ∧ deleteWhileBoundVao s (Vao.dropTrace a) = false := by
  refine ⟨rfl, rfl, rfl, ?_, ?_, ?_⟩ <;>
    simp [Vbo.dropTrace, Ibo.dropTrace, Vao.dropTrace, deleteWhileBoundArray,
      deleteWhileBoundElement, deleteWhileBoundVao, applyCall,
      GL_ARRAY_BUFFER, GL_ELEMENT_ARRAY_BUFFER] <;>
    intro h <;> simp [h]

/-- C8: configuring the layout binds the vertex array first, then per
attribute (in slot order 0,1,2) enables the slot and registers component
count, type, normalization, stride and offset; every registered offset is the
repr(C) byte offset of the corresponding `Vertex` field (0, 8, 20), every
stride is the record size 28, and the component counts match the field
types. -/
theorem vao_configure_registers_true_layout (a : Vao) :
    Vao.set a = GLCall.bindVertexArray a.id :: Vertex.desc
    ∧ Vertex.desc =
      [GLCall.enableVertexAttribArray 0,
       GLCall.vertexAttribPointer 0 2 GL_FLOAT false sizeOfVertex (vertexOffset 0),
       GLCall.enableVertexAttribArray 1,
       GLCall.vertexAttribPointer 1 3 GL_FLOAT false sizeOfVertex (vertexOffset 1),
       GLCall.enableVertexAttribArray 2,
       GLCall.vertexAttribPointer 2 2 GL_FLOAT false sizeOfVertex (vertexOffset 2)]
    ∧ reprCOffsets vertexFieldTys = [0, 8, 20]
    ∧ vertexOffset 0 = 0 ∧ vertexOffset 1 = 8 ∧ vertexOffset 2 = 20
    ∧ sizeOfVertex = 28
    ∧ vertexFieldTys.map List.length = [2, 3, 2] := by
  refine ⟨rfl, rfl, ?_, ?_, ?_, ?_, ?_, ?_⟩ <;> decide

/-- A driver whose uniform query answers location 5 for every program and
name; used to compare handles resolved against different programs. -/
def dShared : GLDriver where
  createShaderRet := fun _ => 7
  compileStatus := fun _ _ => 1
  shaderLogLen := fun _ _ => 0
  shaderLog := fun _ _ => ""
  createProgramRet := 21
  linkStatus := fun _ => 1
  programLogLen := fun _ => 0
  programLog := fun _ => ""
  uniformLocation := fun _ _ => 5

/-- C9: for a name that is a valid C string, `Uniform::new` fails exactly when
the driver answers the sentinel -1; the error message names the requested
parameter, and otherwise the returned handle holds the queried location (a
pure value, hence unchanged for as long as the caller keeps it). -/
theorem resolve_fails_iff_sentinel (d : GLDriver) (program : GLuint) (name : String)
    (hnul : (Char.ofNat 0) ∉ name.data) :
    ((∃ msg, (Uniform.new d program name).1 = NewResult.err msg) ↔
        d.uniformLocation program name = -1)
    ∧ (d.uniformLocation program name = -1 →
        (Uniform.new d program name).1 =
          NewResult.err ("Couldn\x27t get Uniform location for " ++ name))
    ∧ (d.uniformLocation program name ≠ -1 →
        (Uniform.new d program name).1 =
          NewResult.ok ⟨d.uniformLocation program name⟩) := by
  by_cases h : d.uniformLocation program name = -1
  · refine ⟨⟨fun _ => h, fun _ => ?_⟩, fun _ => ?_, fun hc => absurd h hc⟩ <;>
      simp [Uniform.new, hnul, h]
  · refine ⟨⟨fun ⟨msg, hmsg⟩ => ?_, fun hc => absurd hc h⟩, fun hc => absurd hc h,
      fun _ => ?_⟩
    · simp [Uniform.new, hnul, h] at hmsg
    · simp [Uniform.new, hnul, h]

/-- Witness for C9: "u_time" resolves on `dOk` (location 5), "u_res" does not
(the driver answers -1 and the error message names it). -/
theorem resolve_fails_iff_sentinel_witness :
    (Char.ofNat 0) ∉ "u_res".data
    ∧ (((∃ msg, (Uniform.new dOk 21 "u_res").1 = NewResult.err msg) ↔
          dOk.uniformLocation 21 "u_res" = -1)
        ∧ (dOk.uniformLocation 21 "u_res" = -1 →
            (Uniform.new dOk 21 "u_res").1 =
              NewResult.err ("Couldn\x27t get Uniform location for " ++ "u_res"))
        ∧ (dOk.uniformLocation 21 "u_res" ≠ -1 →
            (Uniform.new dOk 21 "u_res").1 =
              NewResult.ok ⟨dOk.uniformLocation 21 "u_res"⟩)) :=
  ⟨by decide, resolve_fails_iff_sentinel dOk 21 "u_res" (by decide)⟩

/-- C10: a name containing a NUL byte makes `Uniform::new` panic (the `expect`
on `CString::new`) before any driver query is issued, so the `Result` error
contract only covers names that are valid C strings. -/
theorem resolve_panics_on_nul_name (d : GLDriver) (program : GLuint) (name : String)
    (h : (Char.ofNat 0) ∈ name.data) :
    (Uniform.new d program name).1 = NewResult.panicked
    ∧ (Uniform.new d program name).2 = [] := by
  constructor <;> simp [Uniform.new, h]

/-- Witness for C10 at the name "u\x00t". -/
theorem resolve_panics_on_nul_name_witness :
    (Char.ofNat 0) ∈ "u\x00t".data
    ∧ ((Uniform.new dOk 21 "u\x00t").1 = NewResult.panicked
        ∧ (Uniform.new dOk 21 "u\x00t").2 = []) :=
  ⟨by decide, resolve_panics_on_nul_name dOk 21 "u\x00t" (by decide)⟩

/-- C2 counterexample: the handle does not bind the program identifier.
Resolving the same name against two different programs (7 and 9) yields one
and the same handle, so no stored program identifier distinguishes them, and
the setter emits a call carrying only the stored location and the value ---
`gl::Uniform1f` / `gl::Uniform2f` take no program argument. -/
theorem uniform_handle_lacks_program_id :
    (Uniform.new dShared 7 "u_time").1 = (Uniform.new dShared 9 "u_time").1
    ∧ (Uniform.new dShared 7 "u_time").1 = NewResult.ok ⟨5⟩
    ∧ (7 : GLuint) ≠ 9
    ∧ Uniform.set_1f ⟨5⟩ ⟨0x3F800000⟩ = [GLCall.uniform1f 5 ⟨0x3F800000⟩]
    ∧ Uniform.set_vec2f ⟨5⟩ (⟨1⟩, ⟨2⟩) = [GLCall.uniform2f 5 ⟨1⟩ ⟨2⟩] := by
  refine ⟨?_, ?_, by decide, rfl, rfl⟩ <;> decide

/-- C2 amended: `Uniform::new` returns a handle storing only the resolved
location, and each setter issues its parameter-update call from the handle's
stored location and the value alone; the update applies to whichever program
is current, not to a program identifier kept in the handle. -/
theorem uniform_setters_use_stored_location (d : GLDriver) (program : GLuint)
    (name : String)
    (hnul : (Char.ofNat 0) ∉ name.data)
    (hloc : d.uniformLocation program name ≠ -1) :
    (Uniform.new d program name).1 =
        NewResult.ok ⟨d.uniformLocation program name⟩
    ∧ (∀ x : F32, Uniform.set_1f ⟨d.uniformLocation program name⟩ x =
        [GLCall.uniform1f (d.uniformLocation program name) x])
    ∧ (∀ x y : F32, Uniform.set_vec2f ⟨d.uniformLocation program name⟩ (x, y) =
        [GLCall.uniform2f (d.uniformLocation program name) x y]) := by
  refine ⟨?_, fun x => rfl, fun x y => rfl⟩
  simp [Uniform.new, hnul, hloc]

/-- Witness for the amended C2 at `dShared`, program 7, name "u_time". -/
theorem uniform_setters_use_stored_location_witness :
    (Char.ofNat 0) ∉ "u_time".data
    ∧ dShared.uniformLocation 7 "u_time" ≠ -1
    ∧ ((Uniform.new dShared 7 "u_time").1 =
          NewResult.ok ⟨dShared.uniformLocation 7 "u_time"⟩
        ∧ (∀ x : F32, Uniform.set_1f ⟨dShared.uniformLocation 7 "u_time"⟩ x =
            [GLCall.uniform1f (dShared.uniformLocation 7 "u_time") x])
        ∧ (∀ x y : F32,
            Uniform.set_vec2f ⟨dShared.uniformLocation 7 "u_time"⟩ (x, y) =
              [GLCall.uniform2f (dShared.uniformLocation 7 "u_time") x y])) :=
  ⟨by decide, by decide,
   uniform_setters_use_stored_location dShared 7 "u_time" (by decide) (by decide)⟩

/-- C1: at a driver on which the fragment stage fails to compile, the
`Scancode::R` hot-reload handler deletes the previously active program (id 42)
as its very first driver call, before any shader of the replacement is even
created, and the rebuild then panics; afterwards program 42 is no longer live,
so its identifier is not usable for a subsequent draw call.  This contradicts
the claimed build-then-swap ordering; the spec itself flags this reference
behavior as a defect. -/
theorem hot_reload_deletes_old_program_before_rebuild :
    (hotReloadStep dBadFrag ⟨42⟩ [118] [102]).1 = ReloadOutcome.panicked "bad fragment"
    ∧ (hotReloadStep dBadFrag ⟨42⟩ [118] [102]).2 =
        [GLCall.deleteProgram 42,
         GLCall.createShader GL_VERTEX_SHADER 7, GLCall.shaderSource 7 [118],
         GLCall.compileShader 7, GLCall.getShaderiv 7 GL_COMPILE_STATUS 1,
         GLCall.createShader GL_FRAGMENT_SHADER 8, GLCall.shaderSource 8 [102],
         GLCall.compileShader 8, GLCall.getShaderiv 8 GL_COMPILE_STATUS 0,
         GLCall.getShaderiv 8 GL_INFO_LOG_LENGTH 12, GLCall.getShaderInfoLog 8 12,
         GLCall.deleteShader 8, GLCall.deleteShader 7]
    ∧ livePrograms (GLCall.createProgram 42 ::
        (hotReloadStep dBadFrag ⟨42⟩ [118] [102]).2) = [] := by
  refine ⟨by decide, by decide, by decide⟩

end BlackHole
